import Mathlib

/-!
Verification of the AnimateMyWorld pipeline: a shallow embedding of the
controller in `src/App.tsx` (the `processImage` / `reset` state machine over
`AnimationState`) and of the two remote-call adapters in
`src/services/geminiService.ts` (`analyzeImage` and `generateAnimation`).

Remote services and platform primitives (the Gemini/Veo API, `JSON.parse`,
`fetch`, `setTimeout`) are modelled as explicit parameters: a run of the
controller is a pure function of the adapters' outcomes, and the polling
loop of `generateAnimation` is a fuel-indexed recursion over a stream of
operation statuses that records its observable events (status checks and
fixed 8000 ms sleeps).
-/

namespace AnimateMyWorld

/-- The `status` field of `AnimationState` in `src/types.ts`. -/
inductive Status
  | idle
  | analyzing
  | generating
  | completed
  | error
deriving DecidableEq, Repr

/-- `AnimationState` from `src/types.ts`: the status tag plus the optional
data fields of the loosely-typed record. -/
structure AnimationState where
  status : Status
  imageUrl : Option String
  videoUrl : Option String
  description : Option String
  error : Option String
deriving DecidableEq, Repr

/-- The JSON object `analyzeImage` actually returns: `JSON.parse` gives an
object whose fields may each be absent, the TypeScript `PersonaDetails`
annotation notwithstanding. -/
structure PersonaJson where
  objectName : Option String
  personality : Option String
  animationPrompt : Option String
deriving DecidableEq, Repr

/-- The controller's mutable state in `App.tsx`: the `state` React state
(`AnimationState`) and the `persona` React state (`PersonaDetails | null`). -/
structure AppState where
  state : AnimationState
  persona : Option PersonaJson
deriving DecidableEq, Repr

/-- The initial controller state: `useState({ status: 'idle' })` and
`useState(null)`. -/
def idleApp : AppState :=
  ⟨⟨Status.idle, none, none, none, none⟩, none⟩

/-- `setState({ status: 'analyzing', imageUrl: base64 })` in `processImage`
(App.tsx line 101): the state object is replaced wholesale, so `videoUrl`,
`description` and `error` are absent afterwards; `persona` is untouched. -/
def startAnalyzing (base64 : String) (s : AppState) : AppState :=
  ⟨⟨Status.analyzing, some base64, none, none, none⟩, s.persona⟩

/-- `setPersona(analysis)` in `processImage` (App.tsx line 104). -/
def setPersonaStep (p : PersonaJson) (s : AppState) : AppState :=
  ⟨s.state, some p⟩

/-- `setState(prev => ({ ...prev, status: 'generating' }))` (App.tsx line
106): spreads the previous state, changing only `status`. -/
def toGenerating (s : AppState) : AppState :=
  ⟨{ s.state with status := Status.generating }, s.persona⟩

/-- `setState(prev => ({ ...prev, status: 'completed', videoUrl: video }))`
(App.tsx line 109): spreads the previous state, setting `status` and
`videoUrl`. -/
def completeStep (video : String) (s : AppState) : AppState :=
  ⟨{ s.state with status := Status.completed, videoUrl := some video }, s.persona⟩

/-- `setState(prev => ({ ...prev, status: 'error', error: ... }))` in the
catch block (App.tsx line 112). -/
def errorStep (msg : String) (s : AppState) : AppState :=
  ⟨{ s.state with status := Status.error, error := some msg }, s.persona⟩

/-- `err.message || "Something went wrong"` (App.tsx line 112): a falsy
(empty) message is replaced by the default. -/
def errMessage (e : String) : String :=
  if e = "" then "Something went wrong" else e

/-- `reset` (App.tsx lines 116-119): `setState({ status: 'idle' })` replaces
the state object wholesale and `setPersona(null)` clears the persona. -/
def reset (_s : AppState) : AppState :=
  ⟨⟨Status.idle, none, none, none, none⟩, none⟩

/-- The remote calls `processImage` can issue, with the argument the
generator is invoked with (`analysis.animationPrompt`, possibly absent). -/
inductive Call
  | analyzeCall
  | generateCall (prompt : Option String)
deriving DecidableEq, Repr

/-- Outcome of one `processImage` run: the final controller state, the
sequence of state snapshots produced by the successive `setState` /
`setPersona` updates, and the remote calls issued. -/
structure RunResult where
  final : AppState
  trace : List AppState
  calls : List Call
deriving DecidableEq, Repr

/-- `processImage` (App.tsx lines 100-114), as a pure function of the
analyzer's outcome and of the generator's outcome (a function of the prompt
it is invoked with). It sets `analyzing`, awaits the analyzer; on success it
stores the persona, sets `generating` and awaits the generator; any failure
lands in the catch block, which sets `error`. -/
def processImage (base64 : String) (analyze : Except String PersonaJson)
    (gen : Option String → Except String String) (s0 : AppState) : RunResult :=
  let s1 := startAnalyzing base64 s0
  match analyze with
  | Except.error e =>
      let s2 := errorStep (errMessage e) s1
      ⟨s2, [s1, s2], [Call.analyzeCall]⟩
  | Except.ok p =>
      let s2 := setPersonaStep p s1
      let s3 := toGenerating s2
      match gen p.animationPrompt with
      | Except.error e =>
          let s4 := errorStep (errMessage e) s3
          ⟨s4, [s1, s2, s3, s4], [Call.analyzeCall, Call.generateCall p.animationPrompt]⟩
      | Except.ok video =>
          let s4 := completeStep video s3
          ⟨s4, [s1, s2, s3, s4], [Call.analyzeCall, Call.generateCall p.animationPrompt]⟩

/-- The statuses visible to the presentation layer along a run, in order. -/
def statusesOf (r : RunResult) : List Status :=
  r.trace.map (fun a => a.state.status)

/-- JavaScript `String.prototype.split(',')` over the character list: the
list of comma-separated segments (`"".split(',')` is `[""]`, a string with
k commas yields k+1 segments). -/
def jsSplitComma : List Char → List (List Char)
  | [] => [[]]
  | c :: rest =>
    if c = ',' then [] :: jsSplitComma rest
    else
      match jsSplitComma rest with
      | [] => [[c]]
      | hd :: tl => (c :: hd) :: tl

/-- `base64Image.split(',')[1]` as used by both adapters (geminiService.ts
lines 18 and 58): the second comma-separated segment, or the absent value
(JS `undefined`) when the string has no comma. -/
def transmittedImageData (s : String) : Option String :=
  ((jsSplitComma s.data).get? 1).map String.mk

/-- The fixed instruction text sent by `analyzeImage` (geminiService.ts
line 22). -/
def analyzeInstruction : String :=
  "Analyze this image and identify the most prominent object. If multiple, pick one. Imagine this object as a living character. Provide: 1. The object name. 2. A funny personality description. 3. A detailed prompt for a 5-second video animation where the object moves, blinks, or dances in a human-like way while keeping its original form."

/-- The request `analyzeImage` sends to `ai.models.generateContent`
(geminiService.ts lines 11-38): model name, inline image data and MIME
type, and the fixed instruction. -/
structure AnalyzeRequest where
  model : String
  imageData : Option String
  mimeType : String
  promptText : String
deriving DecidableEq, Repr

/-- Builds `analyzeImage`'s request from its `base64Image` argument. -/
def analyzeRequest (base64Image : String) : AnalyzeRequest :=
  { model := "gemini-3-flash-preview"
    imageData := transmittedImageData base64Image
    mimeType := "image/jpeg"
    promptText := analyzeInstruction }

/-- `response.text || '\x7b\x7d'` (geminiService.ts line 41): an absent or
empty (falsy) response text is replaced by the literal two-character text
of an empty JSON object. -/
def effectiveText : Option String → String
  | none => "\x7b\x7d"
  | some t => if t = "" then "\x7b\x7d" else t

/-- `analyzeImage` (geminiService.ts lines 8-45), as a pure function of the
platform `JSON.parse` primitive (`parse`, returning `none` on a parse
failure) and of the remote response's `text` field. It returns the request
it sent together with either the parsed object — with no validation of its
fields — or the error `"Failed to parse analysis results"` thrown when
`JSON.parse` fails. -/
def analyzeImage (parse : String → Option PersonaJson) (base64Image : String)
    (respText : Option String) : AnalyzeRequest × Except String PersonaJson :=
  (analyzeRequest base64Image,
   match parse (effectiveText respText) with
   | some p => Except.ok p
   | none => Except.error "Failed to parse analysis results")

/-- A remote video operation's observable state: its `done` flag and the
collapsed `response?.generatedVideos?.[0]?.video?.uri` chain. -/
structure Operation where
  done : Bool
  uri : Option String
deriving DecidableEq, Repr

/-- The request `generateAnimation` sends to `ai.models.generateVideos`
(geminiService.ts lines 54-66). -/
structure GenerateRequest where
  model : String
  prompt : String
  imageBytes : Option String
  mimeType : String
  numberOfVideos : Nat
  resolution : String
  aspectRatioCfg : String
deriving DecidableEq, Repr

/-- Builds `generateAnimation`'s submission request from its arguments. -/
def generateRequest (base64Image prompt : String) : GenerateRequest :=
  { model := "veo-3.1-fast-generate-preview"
    prompt := prompt
    imageBytes := transmittedImageData base64Image
    mimeType := "image/jpeg"
    numberOfVideos := 1
    resolution := "720p"
    aspectRatioCfg := "16:9" }

/-- Observable events of the polling loop: receiving an operation status
(the submission response or a `getVideosOperation` response) and an
`await setTimeout` delay of the given milliseconds. -/
inductive PollEvent
  | statusCheck
  | sleep (ms : Nat)
deriving DecidableEq, Repr

/-- The `while (!operation.done)` loop of `generateAnimation`
(geminiService.ts lines 68-71) over the stream `statuses` of successive
operation states (`statuses 0` is the submission's return value, `statuses
(i+1)` the i-th `getVideosOperation` result). Returns the event trace and
the index of the first `done` status, or `none` if the loop does not
terminate within `fuel` iterations (the source loop is unbounded). -/
def pollEvents (statuses : Nat → Operation) : Nat → Nat → Option (List PollEvent × Nat)
  | fuel, i =>
    if (statuses i).done then some ([PollEvent.statusCheck], i)
    else
      match fuel with
      | 0 => none
      | fuel1 + 1 =>
        match pollEvents statuses fuel1 (i + 1) with
        | none => none
        | some (evs, j) => some (PollEvent.statusCheck :: PollEvent.sleep 8000 :: evs, j)

/-- `generateAnimation` (geminiService.ts lines 47-79), as a pure function
of the status stream, of the platform `fetch`-and-`createObjectURL`
pipeline (`fetch`), and of the API key. After the polling loop it reads the
download link; a missing or falsy (empty) link throws
`"Video generation failed - no URI returned"`, otherwise the video at
`downloadLink&key=API_KEY` is fetched and returned. The outer `none` marks
a loop that exceeded `fuel`. -/
def generateAnimation (statuses : Nat → Operation) (fetch : String → String)
    (apiKey : String) (fuel : Nat) (base64Image prompt : String) :
    GenerateRequest × Option (List PollEvent × Except String String) :=
  (generateRequest base64Image prompt,
   match pollEvents statuses fuel 0 with
   | none => none
   | some (evs, j) =>
     some (evs,
       match (statuses j).uri with
       | none => Except.error "Video generation failed - no URI returned"
       | some dl =>
         if dl = "" then Except.error "Video generation failed - no URI returned"
         else Except.ok (fetch (dl ++ "&key=" ++ apiKey))))

/-- The event trace of a poll loop that observes `n` "not done" statuses
followed by one terminal status: n+1 status checks with a fixed 8000 ms
sleep between consecutive checks. -/
def expectedTrace : Nat → List PollEvent
  | 0 => [PollEvent.statusCheck]
  | n + 1 => PollEvent.statusCheck :: PollEvent.sleep 8000 :: expectedTrace n

/-- Whether a poll event is a status check. -/
def isCheck : PollEvent → Bool
  | PollEvent.statusCheck => true
  | PollEvent.sleep _ => false

/-- Number of status checks in an event trace. -/
def countChecks (l : List PollEvent) : Nat :=
  (l.filter isCheck).length

/-- A concrete model of `JSON.parse` used in concrete evaluations: it knows
the empty object literal and one well-formed object that lacks the
`animationPrompt` field; everything else is a parse failure. -/
def cparse : String → Option PersonaJson := fun s =>
  if s = "\x7b\x7d" then some ⟨none, none, none⟩
  else if s = "\x7b\"objectName\":\"mug\",\"personality\":\"sassy\"\x7d" then
    some ⟨some "mug", some "sassy", none⟩
  else none

/-- A concrete persona, as the analyzer would return it. -/
def exPersona : PersonaJson :=
  ⟨some "mug", some "a sassy grandma", some "mug wiggles and winks"⟩

/-- A concrete controller state with a run pending in the `generating`
stage. -/
def exGenerating : AppState :=
  ⟨⟨Status.generating, some "data:image/jpeg;base64,AA", none, none, none⟩, some exPersona⟩

/-- A concrete controller state of a finished run (`completed`). -/
def exCompleted : AppState :=
  ⟨⟨Status.completed, some "data:image/jpeg;base64,AA", some "blob:old", none, none⟩,
   some exPersona⟩

/-- A concrete status stream: "not done" for two ticks, then done with a
valid download link. -/
def exStatuses : Nat → Operation := fun k =>
  if k < 2 then ⟨false, none⟩ else ⟨true, some "https://dl.example/video"⟩

/-- A concrete status stream: "not done" once, then done with no download
link. -/
def exStatusesNoUri : Nat → Operation := fun k =>
  if k < 1 then ⟨false, none⟩ else ⟨true, none⟩

/-- If the first `done` status is the n-th observation (observations 0..n-1
report "not done"), the polling loop of `generateAnimation` terminates at
index n with the alternating check/sleep trace `expectedTrace n`, given at
least n units of fuel. -/
theorem pollEvents_firstDone (statuses : Nat → Operation) :
    ∀ (n i fuel : Nat), n ≤ fuel →
      (∀ k, k < n → (statuses (i + k)).done = false) →
      (statuses (i + n)).done = true →
      pollEvents statuses fuel i = some (expectedTrace n, i + n) := by
  intro n
  induction n with
  | zero =>
      intro i fuel _ _ hdone
      rw [Nat.add_zero] at hdone
      unfold pollEvents
      simp [hdone, expectedTrace]
  | succ m ih =>
      intro i fuel hfuel hnot hdone
      have h0 : (statuses i).done = false := by
        have h := hnot 0 (Nat.succ_pos m)
        rw [Nat.add_zero] at h
        exact h
      obtain ⟨fuel1, rfl⟩ : ∃ f1, fuel = f1 + 1 := by
        cases fuel with
        | zero => omega
        | succ f => exact ⟨f, rfl⟩
      have hrec : pollEvents statuses fuel1 (i + 1) = some (expectedTrace m, i + 1 + m) := by
        refine ih (i + 1) fuel1 (by omega) (fun k hk => ?_) ?_
        · have h := hnot (k + 1) (by omega)
          have e : i + (k + 1) = i + 1 + k := by omega
          rw [e] at h
          exact h
        · have e : i + (m + 1) = i + 1 + m := by omega
          rw [e] at hdone
          exact hdone
      unfold pollEvents
      rw [h0]
      simp only [Bool.false_eq_true, if_false, hrec]
      have e : i + 1 + m = i + (m + 1) := by omega
      rw [e]
      rfl

/-- The trace `expectedTrace n` contains exactly n+1 status checks. -/
theorem countChecks_expectedTrace : ∀ n, countChecks (expectedTrace n) = n + 1 := by
  intro n
  induction n with
  | zero => rfl
  | succ m ih =>
      simp only [expectedTrace, countChecks, List.filter] at ih ⊢
      simp [isCheck] at ih ⊢
      omega

/-- A comma-free character list splits into a single segment. -/
theorem jsSplitComma_no_comma : ∀ (l : List Char), ',' ∉ l → jsSplitComma l = [l] := by
  intro l
  induction l with
  | nil => intro _; rfl
  | cons c rest ih =>
      intro h
      simp only [List.mem_cons, not_or] at h
      obtain ⟨h1, h2⟩ := h
      have hc : ¬(c = ',') := fun e => h1 e.symm
      simp [jsSplitComma, hc, ih h2]

/-- Splitting a list of the form `a ++ ',' :: b` with no comma in `a`
yields `a` as the first segment followed by the split of `b`. -/
theorem jsSplitComma_append : ∀ (a b : List Char), ',' ∉ a →
    jsSplitComma (a ++ ',' :: b) = a :: jsSplitComma b := by
  intro a
  induction a with
  | nil => intro b _; simp [jsSplitComma]
  | cons c a1 ih =>
      intro b h
      simp only [List.mem_cons, not_or] at h
      obtain ⟨h1, h2⟩ := h
      have hc : ¬(c = ',') := fun e => h1 e.symm
      simp [jsSplitComma, hc, ih b h2]

/-- C1 counterexample: `reset` puts the controller in `Idle`, but a
generator response arriving afterwards (the pending `setState(prev => ...)`
continuation of `processImage`) still fires and moves the controller to
`Completed` — the code has no staleness marker, so the stale result is not
ignored and the controller does not remain in `Idle`. -/
theorem c1_counterexample :
    (reset exGenerating).state.status = Status.idle ∧
    (completeStep "blob:late-video" (reset exGenerating)).state.status = Status.completed ∧
    Status.completed ≠ Status.idle := by
  decide

/-- C1 amended: if `reset` is called while a run is pending in the
`Generating` stage, a subsequently-arriving generator response DOES produce
a state transition: its `setState(prev => ({...prev, status: 'completed',
videoUrl}))` update spreads the freshly reset state and moves the
controller from `Idle` to `Completed` holding the stale video (with no
image and no persona). The source has no staleness/epoch mechanism. -/
theorem c1_stale_generator_clobbers_reset (video : String) (s : AppState) :
    completeStep video (reset s) =
      ⟨⟨Status.completed, none, some video, none, none⟩, none⟩ := rfl

/-- C4: when the analyzer call fails, `processImage` jumps straight to the
catch block: the only remote call of the run is the analyzer call, so the
generator is never invoked, and the run ends in the `error` status. -/
theorem c4_analyzer_failure_skips_generator (base64 e : String)
    (g : Option String → Except String String) (s0 : AppState) :
    (processImage base64 (Except.error e) g s0).calls = [Call.analyzeCall] ∧
    (∀ pr, Call.generateCall pr ∉ (processImage base64 (Except.error e) g s0).calls) ∧
    (processImage base64 (Except.error e) g s0).final.state.status = Status.error := by
  refine ⟨rfl, ?_, rfl⟩
  intro pr
  simp [processImage]

/-- C5 counterexample: from the non-`Idle` state `exCompleted`, with no
intervening `reset`, invoking `processImage` does begin a new run: the
first state snapshot is the `analyzing` state with the new image, and the
analyzer is invoked. -/
theorem c5_counterexample :
    exCompleted.state.status ≠ Status.idle ∧
    (processImage "data:image/jpeg;base64,BB" (Except.ok exPersona)
        (fun _ => Except.ok "blob:new") exCompleted).trace.head? =
      some (startAnalyzing "data:image/jpeg;base64,BB" exCompleted) ∧
    (startAnalyzing "data:image/jpeg;base64,BB" exCompleted).state.status = Status.analyzing ∧
    Call.analyzeCall ∈ (processImage "data:image/jpeg;base64,BB" (Except.ok exPersona)
        (fun _ => Except.ok "blob:new") exCompleted).calls := by
  decide

/-- C5 amended: `processImage` performs no state guard at all: invoked from
any controller state — `Idle` or not — it unconditionally transitions to
`analyzing` with the new image as its first update and invokes the
analyzer. Overlapping runs are prevented only by the UI, which renders the
capture/upload controls solely in the `idle` state, not by the controller
operation itself. -/
theorem c5_start_unguarded (base64 : String) (analyze : Except String PersonaJson)
    (g : Option String → Except String String) (s0 : AppState) :
    (processImage base64 analyze g s0).trace.head? = some (startAnalyzing base64 s0) ∧
    (startAnalyzing base64 s0).state.status = Status.analyzing ∧
    Call.analyzeCall ∈ (processImage base64 analyze g s0).calls := by
  refine ⟨?_, rfl, ?_⟩ <;>
    cases analyze with
    | error e => simp [processImage]
    | ok p => cases hg : g p.animationPrompt <;> simp [processImage, hg]

/-- C8: `reset` replaces the state object wholesale with `{status: 'idle'}`
and sets the persona to `null`, so from any state the result is `Idle` with
no residual image, video, description, error, or persona. -/
theorem c8_reset_clears_everything (s : AppState) :
    (reset s).state.status = Status.idle ∧
    (reset s).state.imageUrl = none ∧
    (reset s).state.videoUrl = none ∧
    (reset s).state.description = none ∧
    (reset s).state.error = none ∧
    (reset s).persona = none :=
  ⟨rfl, rfl, rfl, rfl, rfl, rfl⟩

/-- C2 counterexample: a remote response that is valid JSON but lacks the
`animationPrompt` field does NOT make the adapter raise a schema error:
`analyzeImage` returns it as a success (the code performs no field
validation after `JSON.parse`), and the controller then proceeds into the
`generating` status instead of ending in `error`. -/
theorem c2_counterexample :
    (analyzeImage cparse "data:image/jpeg;base64,AA"
        (some "\x7b\"objectName\":\"mug\",\"personality\":\"sassy\"\x7d")).2 =
      Except.ok ⟨some "mug", some "sassy", none⟩ ∧
    Status.generating ∈ statusesOf
      (processImage "data:image/jpeg;base64,AA"
        (Except.ok ⟨some "mug", some "sassy", none⟩)
        (fun _ => Except.ok "blob:v") idleApp) :=
  ⟨rfl, by decide⟩

/-- C2 amended: `analyzeImage` validates nothing beyond JSON
well-formedness: whatever object `JSON.parse` yields — including one with
`animationPrompt` (or any field) absent or empty — is returned as a
success, and the controller then stores it, enters the `generating` status
and invokes the generator with the possibly-absent prompt. Only a
`JSON.parse` failure produces the error
`"Failed to parse analysis results"`. -/
theorem c2_no_field_validation (parse : String → Option PersonaJson)
    (img : String) (text : Option String) (p : PersonaJson)
    (g : Option String → Except String String) (s0 : AppState)
    (h : parse (effectiveText text) = some p) :
    (analyzeImage parse img text).2 = Except.ok p ∧
    Status.generating ∈ statusesOf (processImage img (Except.ok p) g s0) ∧
    Call.generateCall p.animationPrompt ∈ (processImage img (Except.ok p) g s0).calls := by
  refine ⟨?_, ?_, ?_⟩
  · simp [analyzeImage, h]
  · cases hg : g p.animationPrompt <;>
      simp [processImage, statusesOf, hg, toGenerating, setPersonaStep, startAnalyzing]
  · cases hg : g p.animationPrompt <;> simp [processImage, hg]

/-- C2 amended, witness: the concrete parse model accepts the object
missing `animationPrompt` and the controller run passes through
`generating`. -/
theorem c2_no_field_validation_witness :
    cparse (effectiveText (some "\x7b\"objectName\":\"mug\",\"personality\":\"sassy\"\x7d")) =
      some ⟨some "mug", some "sassy", none⟩ ∧
    ((analyzeImage cparse "img"
        (some "\x7b\"objectName\":\"mug\",\"personality\":\"sassy\"\x7d")).2 =
      Except.ok ⟨some "mug", some "sassy", none⟩ ∧
    Status.generating ∈ statusesOf (processImage "img"
        (Except.ok ⟨some "mug", some "sassy", none⟩)
        (fun _ => Except.ok "blob:v") idleApp) ∧
    Call.generateCall (PersonaJson.mk (some "mug") (some "sassy") none).animationPrompt ∈
      (processImage "img" (Except.ok ⟨some "mug", some "sassy", none⟩)
        (fun _ => Except.ok "blob:v") idleApp).calls) :=
  ⟨by decide,
   c2_no_field_validation cparse "img"
     (some "\x7b\"objectName\":\"mug\",\"personality\":\"sassy\"\x7d")
     ⟨some "mug", some "sassy", none⟩ (fun _ => Except.ok "blob:v") idleApp (by decide)⟩

/-- C3: if the status stream reports "not done" for N observations and
"done" with a non-empty download link at observation N, `generateAnimation`
terminates with exactly N+1 status checks, a fixed 8000 ms sleep between
consecutive checks (the trace is `expectedTrace N`), and returns the video
fetched from the download link. -/
theorem c3_poll_n_plus_one_checks (statuses : Nat → Operation)
    (fetch : String → String) (apiKey base64Image prompt dl : String)
    (N fuel : Nat) (hfuel : N ≤ fuel)
    (hnot : ∀ k, k < N → (statuses k).done = false)
    (hdone : (statuses N).done = true)
    (huri : (statuses N).uri = some dl) (hne : ¬(dl = "")) :
    (generateAnimation statuses fetch apiKey fuel base64Image prompt).2 =
      some (expectedTrace N, Except.ok (fetch (dl ++ "&key=" ++ apiKey))) ∧
    countChecks (expectedTrace N) = N + 1 := by
  constructor
  · have hp := pollEvents_firstDone statuses N 0 fuel hfuel
      (fun k hk => by simpa using hnot k hk) (by simpa using hdone)
    simp [generateAnimation, hp, huri, hne]
  · exact countChecks_expectedTrace N

/-- C3 witness: a concrete stream that is "not done" for 2 ticks and then
done with a valid link yields exactly 3 status checks and the fetched
payload. -/
theorem c3_poll_n_plus_one_checks_witness :
    (∀ k, k < 2 → (exStatuses k).done = false) ∧ (exStatuses 2).done = true ∧
    (exStatuses 2).uri = some "https://dl.example/video" ∧
    ((generateAnimation exStatuses (fun u => String.append "blob:" u) "KEY" 5
        "data:image/jpeg;base64,AA" "mug wiggles").2 =
      some (expectedTrace 2,
        Except.ok (String.append "blob:" ("https://dl.example/video" ++ "&key=" ++ "KEY"))) ∧
    countChecks (expectedTrace 2) = 2 + 1) :=
  ⟨by decide, by decide, by decide,
   c3_poll_n_plus_one_checks exStatuses (fun u => String.append "blob:" u) "KEY"
     "data:image/jpeg;base64,AA" "mug wiggles" "https://dl.example/video" 2 5
     (by decide) (by decide) (by decide) (by decide) (by decide)⟩

/-- C6: if the first terminal "done" status (observation N) carries no
retrievable download link — the `uri` chain is absent, or empty and hence
falsy — `generateAnimation` fails with
`"Video generation failed - no URI returned"` rather than returning an
empty result, and its trace is exactly `expectedTrace N`: N+1 status
checks, none after the terminal status. -/
theorem c6_done_without_uri_fails (statuses : Nat → Operation)
    (fetch : String → String) (apiKey base64Image prompt : String)
    (N fuel : Nat) (hfuel : N ≤ fuel)
    (hnot : ∀ k, k < N → (statuses k).done = false)
    (hdone : (statuses N).done = true)
    (huri : (statuses N).uri = none ∨ (statuses N).uri = some "") :
    (generateAnimation statuses fetch apiKey fuel base64Image prompt).2 =
      some (expectedTrace N, Except.error "Video generation failed - no URI returned") ∧
    countChecks (expectedTrace N) = N + 1 := by
  constructor
  · have hp := pollEvents_firstDone statuses N 0 fuel hfuel
      (fun k hk => by simpa using hnot k hk) (by simpa using hdone)
    cases huri with
    | inl h => simp [generateAnimation, hp, h]
    | inr h => simp [generateAnimation, hp, h]
  · exact countChecks_expectedTrace N

/-- C6 witness: a concrete stream that is "not done" once and then done
with no link yields the generation-failed error after exactly 2 status
checks. -/
theorem c6_done_without_uri_fails_witness :
    (∀ k, k < 1 → (exStatusesNoUri k).done = false) ∧ (exStatusesNoUri 1).done = true ∧
    (exStatusesNoUri 1).uri = none ∧
    ((generateAnimation exStatusesNoUri (fun u => u) "KEY" 4
        "data:image/jpeg;base64,AA" "mug wiggles").2 =
      some (expectedTrace 1, Except.error "Video generation failed - no URI returned") ∧
    countChecks (expectedTrace 1) = 1 + 1) :=
  ⟨by decide, by decide, by decide,
   c6_done_without_uri_fails exStatusesNoUri (fun u => u) "KEY"
     "data:image/jpeg;base64,AA" "mug wiggles" 1 4
     (by decide) (by decide) (by decide) (Or.inl (by decide))⟩

/-- C7: a run whose analyzer succeeds with persona `p` and whose generator
— invoked with `p.animationPrompt` — succeeds with a video ends in the
`completed` status holding that video, with the stored persona (hence its
`objectName`) exactly the one the analyzer returned. -/
theorem c7_success_path_completed (base64 video : String) (p : PersonaJson)
    (g : Option String → Except String String) (s0 : AppState)
    (h : g p.animationPrompt = Except.ok video) :
    (processImage base64 (Except.ok p) g s0).final.state.status = Status.completed ∧
    (processImage base64 (Except.ok p) g s0).final.state.videoUrl = some video ∧
    (processImage base64 (Except.ok p) g s0).final.persona = some p ∧
    ((processImage base64 (Except.ok p) g s0).final.persona).map
        (fun q => q.objectName) = some p.objectName := by
  simp [processImage, h, completeStep, toGenerating, setPersonaStep, startAnalyzing]

/-- C7 witness: a concrete successful run ends completed with the
analyzer's persona and the generator's video. -/
theorem c7_success_path_completed_witness :
    (fun pr => if pr = exPersona.animationPrompt then Except.ok "blob:v" else
        Except.error "wrong prompt") exPersona.animationPrompt = Except.ok "blob:v" ∧
    ((processImage "data:image/jpeg;base64,AA" (Except.ok exPersona)
        (fun pr => if pr = exPersona.animationPrompt then Except.ok "blob:v" else
          Except.error "wrong prompt") idleApp).final.state.status = Status.completed ∧
    (processImage "data:image/jpeg;base64,AA" (Except.ok exPersona)
        (fun pr => if pr = exPersona.animationPrompt then Except.ok "blob:v" else
          Except.error "wrong prompt") idleApp).final.state.videoUrl = some "blob:v" ∧
    (processImage "data:image/jpeg;base64,AA" (Except.ok exPersona)
        (fun pr => if pr = exPersona.animationPrompt then Except.ok "blob:v" else
          Except.error "wrong prompt") idleApp).final.persona = some exPersona ∧
    ((processImage "data:image/jpeg;base64,AA" (Except.ok exPersona)
        (fun pr => if pr = exPersona.animationPrompt then Except.ok "blob:v" else
          Except.error "wrong prompt") idleApp).final.persona).map
        (fun q => q.objectName) = some exPersona.objectName) :=
  ⟨rfl,
   c7_success_path_completed "data:image/jpeg;base64,AA" "blob:v" exPersona
     (fun pr => if pr = exPersona.animationPrompt then Except.ok "blob:v" else
       Except.error "wrong prompt") idleApp rfl⟩

/-- C9: when the remote response text is absent or empty (falsy),
`analyzeImage` parses the substituted literal empty-object text and
succeeds with an object whose three fields are all absent — it does not
fail; the `"Failed to parse analysis results"` error can only arise when
the text is present, non-empty and fails to parse. (`hp` pins down the
`JSON.parse` primitive on the empty-object literal.) -/
theorem c9_falsy_text_defaults_to_empty_object (parse : String → Option PersonaJson)
    (img : String) (hp : parse "\x7b\x7d" = some ⟨none, none, none⟩) :
    (analyzeImage parse img none).2 = Except.ok ⟨none, none, none⟩ ∧
    (analyzeImage parse img (some "")).2 = Except.ok ⟨none, none, none⟩ ∧
    (∀ text m, (analyzeImage parse img text).2 = Except.error m →
      ∃ t, text = some t ∧ ¬(t = "") ∧ parse t = none) := by
  refine ⟨by simp [analyzeImage, effectiveText, hp],
          by simp [analyzeImage, effectiveText, hp], ?_⟩
  intro text m h
  cases text with
  | none => simp [analyzeImage, effectiveText, hp] at h
  | some t =>
      by_cases ht : t = ""
      · subst ht
        simp [analyzeImage, effectiveText, hp] at h
      · refine ⟨t, rfl, ht, ?_⟩
        cases hpt : parse t with
        | some q => simp [analyzeImage, effectiveText, ht, hpt] at h
        | none => rfl

/-- C9 witness: the concrete parse model maps the empty-object literal to
the all-absent object, and `analyzeImage` behaves as stated on absent and
empty response text. -/
theorem c9_falsy_text_defaults_to_empty_object_witness :
    cparse "\x7b\x7d" = some ⟨none, none, none⟩ ∧
    ((analyzeImage cparse "img" none).2 = Except.ok ⟨none, none, none⟩ ∧
     (analyzeImage cparse "img" (some "")).2 = Except.ok ⟨none, none, none⟩ ∧
     (∀ text m, (analyzeImage cparse "img" text).2 = Except.error m →
       ∃ t, text = some t ∧ ¬(t = "") ∧ cparse t = none)) :=
  ⟨by decide, c9_falsy_text_defaults_to_empty_object cparse "img" (by decide)⟩

/-- C10: both adapters transmit `split(',')[1]` of the input as the image
data. For a data-URL-shaped input — first comma separating a comma-free
header from a comma-free payload — that is exactly the substring after the
first comma; for an input with no comma at all it is the absent value, and
the adapter itself raises no error on that account: `analyzeImage`'s
outcome on the comma-less input is identical to its outcome on any other
input. -/
theorem c10_image_data_after_first_comma (prompt : String) (a b : List Char)
    (s t : String) (ha : ',' ∉ a) (hb : ',' ∉ b)
    (hs : s.data = a ++ ',' :: b) (ht : ',' ∉ t.data) :
    (analyzeRequest s).imageData = some (String.mk b) ∧
    (generateRequest s prompt).imageBytes = some (String.mk b) ∧
    (analyzeRequest t).imageData = none ∧
    (generateRequest t prompt).imageBytes = none ∧
    (∀ (parse : String → Option PersonaJson) (text : Option String),
      (analyzeImage parse t text).2 = (analyzeImage parse s text).2) := by
  have hsplit : transmittedImageData s = some (String.mk b) := by
    unfold transmittedImageData
    rw [hs, jsSplitComma_append a b ha, jsSplitComma_no_comma b hb]
    rfl
  have hnone : transmittedImageData t = none := by
    unfold transmittedImageData
    rw [jsSplitComma_no_comma t.data ht]
    rfl
  exact ⟨by simp [analyzeRequest, hsplit], by simp [generateRequest, hsplit],
         by simp [analyzeRequest, hnone], by simp [generateRequest, hnone],
         fun parse text => rfl⟩

/-- C10 witness: a concrete data URL transmits its base64 payload, and a
concrete comma-less string transmits the absent value with the adapter's
outcome unchanged. -/
theorem c10_image_data_after_first_comma_witness :
    (',' ∉ ("data:image/jpeg;base64".data)) ∧ (',' ∉ ("QUJD".data)) ∧
    ("data:image/jpeg;base64,QUJD".data = "data:image/jpeg;base64".data ++ ',' :: "QUJD".data) ∧
    (',' ∉ ("nocomma".data)) ∧
    ((analyzeRequest "data:image/jpeg;base64,QUJD").imageData = some (String.mk "QUJD".data) ∧
     (generateRequest "data:image/jpeg;base64,QUJD" "mug wiggles").imageBytes =
       some (String.mk "QUJD".data) ∧
     (analyzeRequest "nocomma").imageData = none ∧
     (generateRequest "nocomma" "mug wiggles").imageBytes = none ∧
     (∀ (parse : String → Option PersonaJson) (text : Option String),
       (analyzeImage parse "nocomma" text).2 =
         (analyzeImage parse "data:image/jpeg;base64,QUJD" text).2)) :=
  ⟨by decide, by decide, by decide, by decide,
   c10_image_data_after_first_comma "mug wiggles" ("data:image/jpeg;base64".data)
     ("QUJD".data) "data:image/jpeg;base64,QUJD" "nocomma"
     (by decide) (by decide) (by decide) (by decide)⟩

end AnimateMyWorld
